import Mathlib

/-!
Verification of the SystemChrono 64-bit time engine.

This file gives a shallow embedding of the core of the SystemChrono
library (saturating 64-bit arithmetic, the wrap-tracked monotonic clock,
elapsed-time helpers, the auto-elapsed value types, the stopwatch and the
duration formatter) and proves the specified properties about it.

Machine integers are embedded as follows: a C++ int64_t value is a
mathematical integer together with range side conditions where they
matter; uint32_t / uint64_t quantities are naturals reduced modulo 2^32 /
2^64 exactly where the C++ code wraps.  C++ signed division and modulus
(truncation toward zero) are Int.tdiv and Int.tmod.  The compiler builtin
overflow probes (builtin add, sub and mul overflow) report overflow
exactly when the infinite-precision result is outside the int64_t range,
which is how they are rendered below.
-/

namespace SystemChrono

/-- Embeds the constant INT64_MIN_VALUE from SystemChrono.cpp. -/
def INT64_MIN_VALUE : Int := -(2 ^ 63)

/-- Embeds the constant INT64_MAX_VALUE from SystemChrono.cpp. -/
def INT64_MAX_VALUE : Int := 2 ^ 63 - 1

/-- The int64_t range as a predicate. -/
def inInt64Range (v : Int) : Prop := INT64_MIN_VALUE ≤ v ∧ v ≤ INT64_MAX_VALUE

instance (v : Int) : Decidable (inInt64Range v) := by
  unfold inInt64Range; infer_instance

/-- Embeds saturatingAdd from SystemChrono.cpp: return the exact sum when
the builtin overflow probe reports no overflow, otherwise clamp to MAX
when rhs is nonnegative and to MIN otherwise. -/
def saturatingAdd (lhs rhs : Int) : Int :=
  if inInt64Range (lhs + rhs) then lhs + rhs
  else if 0 ≤ rhs then INT64_MAX_VALUE else INT64_MIN_VALUE

/-- Embeds saturatingSub from SystemChrono.cpp: exact difference when
representable, otherwise clamp to MIN when rhs is nonnegative and to MAX
otherwise. -/
def saturatingSub (lhs rhs : Int) : Int :=
  if inInt64Range (lhs - rhs) then lhs - rhs
  else if 0 ≤ rhs then INT64_MIN_VALUE else INT64_MAX_VALUE

/-- Embeds saturatingMul from SystemChrono.cpp: exact product when
representable, otherwise clamp to MAX when the operands have the same
sign and to MIN otherwise. -/
def saturatingMul (lhs rhs : Int) : Int :=
  if inInt64Range (lhs * rhs) then lhs * rhs
  else if (lhs < 0) = (rhs < 0) then INT64_MAX_VALUE else INT64_MIN_VALUE

/-- Embeds millisToMicrosSaturated from SystemChrono.cpp. -/
def millisToMicrosSaturated (valueMs : Int) : Int :=
  saturatingMul valueMs 1000

/-- Embeds secondsToMicrosSaturated from SystemChrono.cpp. -/
def secondsToMicrosSaturated (valueS : Int) : Int :=
  saturatingMul valueS 1000000

/-- Embeds absToUnsigned from SystemChrono.cpp: overflow-safe absolute
value of an int64_t, landing in uint64_t (a natural number here). -/
def absToUnsigned (value : Int) : Nat :=
  if 0 ≤ value then value.toNat
  else if value = INT64_MIN_VALUE then INT64_MAX_VALUE.toNat + 1
  else (-value).toNat

/-- Embeds the Err error-code enumeration from Status.h. -/
inductive Err where
  | OK
  | INVALID_CONFIG
  | TIMEOUT
  | RESOURCE_BUSY
  | COMM_FAILURE
  | NOT_INITIALIZED
  | OUT_OF_MEMORY
  | HARDWARE_FAULT
  | EXTERNAL_LIB_ERROR
  | INTERNAL_ERROR
  deriving DecidableEq, Repr

/-- Embeds the Status struct from Status.h (code, detail, static msg). -/
structure Status where
  code : Err
  detail : Int
  msg : String
  deriving DecidableEq, Repr

/-- Embeds the ok() accessor of Status. -/
def Status.ok (s : Status) : Bool := s.code = Err.OK

/-- Embeds the Ok() helper from Status.h. -/
def Ok : Status := ⟨Err.OK, 0, ""⟩

end SystemChrono

namespace SystemChrono

/-!  The wrap-tracked narrow-counter time source (micros64Impl).  The
file-level statics last and high of micros64Impl become an explicit
state; one call of micros64Impl becomes one step of the state machine,
fed with the raw reading returned by the platform micros() primitive. -/

/-- State of the wrap-tracked clock in micros64Impl: the last observed
32-bit reading and the 64-bit high accumulator. -/
structure ClockState where
  last : Nat
  high : Nat
  deriving DecidableEq, Repr

/-- Initial state of the micros64Impl statics (last = 0, high = 0). -/
def ClockState.init : ClockState := ⟨0, 0⟩

/-- The 64-bit value the clock state composes (high or-ed with the last
observed reading), as produced by the most recent call. -/
def ClockState.value (s : ClockState) : Nat := s.high ||| s.last

/-- Embeds one call of micros64Impl on the generic Arduino path: read the
narrow counter (truncated to uint32_t), bump the high accumulator by one
wrap span when the reading went backwards, store the reading, and return
the composed 64-bit value.  The uint64_t accumulator wraps modulo 2^64. -/
def micros64Step (s : ClockState) (reading : Nat) : ClockState × Nat :=
  let now := reading % 2 ^ 32
  let high := if now < s.last then (s.high + 2 ^ 32) % 2 ^ 64 else s.high
  (⟨now, high⟩, high ||| now)

/-- Runs micros64Step over a list of successive raw readings, returning
the list of composed 64-bit results. -/
def micros64Run (s : ClockState) : List Nat → List Nat
  | [] => []
  | r :: rs =>
    let (s', v) := micros64Step s r
    v :: micros64Run s' rs

end SystemChrono

namespace SystemChrono

/-!  The duration formatter (formatTimeTo and helpers). -/

/-- Modelled from the spec: the fixed minimum capacity constant
TIME_FORMAT_BUFFER_SIZE declared in the SystemChrono 2.0 public header,
which is absent from the sources at hand; the spec sizes it for the worst
case of a full 64-bit hour count of about 20 digits plus sign, the three
separators, two 2-digit fields, one 3-digit field and the NUL
terminator, giving 32 bytes. -/
def TIME_FORMAT_BUFFER_SIZE : Nat := 32

/-- Decimal rendering of a uint64_t field under printf padding 02llu. -/
def pad2 (n : Nat) : String :=
  if n < 10 then "0" ++ Nat.repr n else Nat.repr n

/-- Decimal rendering of a uint64_t field under printf padding 03llu. -/
def pad3 (n : Nat) : String :=
  if n < 10 then "00" ++ Nat.repr n
  else if n < 100 then "0" ++ Nat.repr n
  else Nat.repr n

/-- Embeds the field computation and snprintf rendering of formatTimeTo:
sign, unpadded hours, 2-padded minutes and seconds, 3-padded millis. -/
def renderTime (microsSinceBoot : Int) : String :=
  let negative := microsSinceBoot < 0
  let totalMs := absToUnsigned microsSinceBoot / 1000
  let hours := totalMs / 3600000
  let minutes := (totalMs / 60000) % 60
  let seconds := (totalMs / 1000) % 60
  let millis := totalMs % 1000
  (if negative then "-" else "") ++
    Nat.repr hours ++ ":" ++ pad2 minutes ++ ":" ++ pad2 seconds ++
    "." ++ pad3 millis

/-- What the caller-supplied output buffer holds after formatTimeTo
returns: untouched, first byte set to the NUL terminator, or a complete
NUL-terminated string. -/
inductive BufState where
  | untouched
  | terminated
  | written (s : String)
  deriving DecidableEq, Repr

/-- Embeds formatTimeTo from SystemChrono.cpp.  The char* out pointer is
abstracted to a nullness flag plus the final buffer contents; outLen is
the byte capacity.  snprintf is abstracted by renderTime together with
its would-have-written count (the rendered length). -/
def formatTimeTo (microsSinceBoot : Int) (outIsNull : Bool) (outLen : Nat) :
    Status × BufState :=
  if outIsNull = true ∨ outLen = 0 then
    (⟨Err.INVALID_CONFIG, 0, "Output buffer is null or empty"⟩, .untouched)
  else if outLen < TIME_FORMAT_BUFFER_SIZE then
    (⟨Err.INVALID_CONFIG, (TIME_FORMAT_BUFFER_SIZE : Int), "Output buffer too small"⟩,
      .terminated)
  else
    let s := renderTime microsSinceBoot
    if outLen ≤ s.length then
      (⟨Err.INVALID_CONFIG, ((s.length : Int) + 1), "Output buffer too small"⟩,
        .terminated)
    else
      (Ok, .written s)

end SystemChrono

namespace SystemChrono

/-!  Time accessors and elapsed helpers.  The ambient clock value
returned by micros64Impl is passed explicitly as the nowUs argument. -/

/-- Embeds micros64: the current 64-bit microsecond reading. -/
def micros64 (nowUs : Int) : Int := nowUs

/-- Embeds millis64: micros64Impl() / 1000 with C++ truncating division. -/
def millis64 (nowUs : Int) : Int := nowUs.tdiv 1000

/-- Embeds seconds64: micros64Impl() / 1000000. -/
def seconds64 (nowUs : Int) : Int := nowUs.tdiv 1000000

/-- Embeds microsSince: saturatingSub(micros64Impl(), startUs). -/
def microsSince (nowUs startUs : Int) : Int := saturatingSub nowUs startUs

/-- Embeds millisSince: saturatingSub(millis64(), startMs). -/
def millisSince (nowUs startMs : Int) : Int := saturatingSub (millis64 nowUs) startMs

/-- Embeds secondsSince: saturatingSub(seconds64(), startS). -/
def secondsSince (nowUs startS : Int) : Int := saturatingSub (seconds64 nowUs) startS

end SystemChrono

namespace SystemChrono

/-!  The Stopwatch class.  Each member function takes the ambient clock
reading nowUs where the C++ body calls micros64(). -/

/-- Embeds the Stopwatch state: start timestamp, accumulated total and
the running flag. -/
structure Stopwatch where
  startUs : Int
  totalUs : Int
  running : Bool
  deriving DecidableEq, Repr

/-- Embeds the Stopwatch default constructor. -/
def Stopwatch.init : Stopwatch := ⟨0, 0, false⟩

/-- Embeds Stopwatch::start: clear the total, rebase, run. -/
def Stopwatch.startAt (_sw : Stopwatch) (nowUs : Int) : Stopwatch :=
  ⟨nowUs, 0, true⟩

/-- Embeds Stopwatch::stop: fold the running segment into the total and
halt; no-op when already stopped. -/
def Stopwatch.stop (sw : Stopwatch) (nowUs : Int) : Stopwatch :=
  if sw.running then
    ⟨0, saturatingAdd sw.totalUs (microsSince nowUs sw.startUs), false⟩
  else sw

/-- Embeds Stopwatch::resume: restart measurement without clearing the
total; no-op when already running. -/
def Stopwatch.resume (sw : Stopwatch) (nowUs : Int) : Stopwatch :=
  if sw.running then sw else ⟨nowUs, sw.totalUs, true⟩

/-- Embeds Stopwatch::reset: clear the total and, when running, rebase
to now. -/
def Stopwatch.reset (sw : Stopwatch) (nowUs : Int) : Stopwatch :=
  ⟨if sw.running then nowUs else 0, 0, sw.running⟩

/-- Embeds Stopwatch::elapsedMicros (a const read). -/
def Stopwatch.elapsedMicros (sw : Stopwatch) (nowUs : Int) : Int :=
  if sw.running then saturatingAdd sw.totalUs (microsSince nowUs sw.startUs)
  else sw.totalUs

/-- Embeds Stopwatch::elapsedMillis. -/
def Stopwatch.elapsedMillis (sw : Stopwatch) (nowUs : Int) : Int :=
  (sw.elapsedMicros nowUs).tdiv 1000

/-- Embeds Stopwatch::elapsedSeconds. -/
def Stopwatch.elapsedSeconds (sw : Stopwatch) (nowUs : Int) : Int :=
  (sw.elapsedMicros nowUs).tdiv 1000000

/-- Embeds Stopwatch::isRunning. -/
def Stopwatch.isRunning (sw : Stopwatch) : Bool := sw.running

end SystemChrono

namespace SystemChrono

/-!  The auto-elapsed value types.  Each stores the single field _us (the
baseline).  Member functions that call micros64Impl() take the ambient
clock reading nowUs explicitly.  The const binary operators return the
pair (receiver after the call, freshly constructed result); the receiver
component reflects that the C++ method is const and its body only ever
assigns to the local copy r. -/

/-- Embeds the ElapsedMicros64 class: stores the baseline field _us. -/
structure ElapsedMicros64 where
  us : Int
  deriving DecidableEq, Repr

/-- Embeds the ElapsedMicros64(int64_t) constructor. -/
def ElapsedMicros64.construct (nowUs valUs : Int) : ElapsedMicros64 :=
  ⟨saturatingSub nowUs valUs⟩

/-- Embeds ElapsedMicros64::operator int64_t (the value read). -/
def ElapsedMicros64.read (nowUs : Int) (e : ElapsedMicros64) : Int :=
  saturatingSub nowUs e.us

/-- Embeds ElapsedMicros64::operator=(int64_t). -/
def ElapsedMicros64.assign (nowUs valUs : Int) : ElapsedMicros64 :=
  ⟨saturatingSub nowUs valUs⟩

/-- Embeds ElapsedMicros64::operator-=(int64_t). -/
def ElapsedMicros64.subAssign (e : ElapsedMicros64) (valUs : Int) : ElapsedMicros64 :=
  ⟨saturatingAdd e.us valUs⟩

/-- Embeds ElapsedMicros64::operator+=(int64_t). -/
def ElapsedMicros64.addAssign (e : ElapsedMicros64) (valUs : Int) : ElapsedMicros64 :=
  ⟨saturatingSub e.us valUs⟩

/-- Embeds the const binary ElapsedMicros64::operator-(int64_t): copy,
shift the copy's baseline, return it; the receiver is left as is. -/
def ElapsedMicros64.subBin (e : ElapsedMicros64) (valUs : Int) :
    ElapsedMicros64 × ElapsedMicros64 :=
  (e, ⟨saturatingAdd e.us valUs⟩)

/-- Embeds the const binary ElapsedMicros64::operator+(int64_t). -/
def ElapsedMicros64.addBin (e : ElapsedMicros64) (valUs : Int) :
    ElapsedMicros64 × ElapsedMicros64 :=
  (e, ⟨saturatingSub e.us valUs⟩)

/-- Embeds the ElapsedMillis64 class: stores the baseline field _us. -/
structure ElapsedMillis64 where
  us : Int
  deriving DecidableEq, Repr

/-- Embeds the ElapsedMillis64(int64_t) constructor. -/
def ElapsedMillis64.construct (nowUs valMs : Int) : ElapsedMillis64 :=
  ⟨saturatingSub nowUs (millisToMicrosSaturated valMs)⟩

/-- Embeds ElapsedMillis64::operator int64_t. -/
def ElapsedMillis64.read (nowUs : Int) (e : ElapsedMillis64) : Int :=
  (saturatingSub nowUs e.us).tdiv 1000

/-- Embeds ElapsedMillis64::operator=(int64_t). -/
def ElapsedMillis64.assign (nowUs valMs : Int) : ElapsedMillis64 :=
  ⟨saturatingSub nowUs (millisToMicrosSaturated valMs)⟩

/-- Embeds ElapsedMillis64::operator-=(int64_t). -/
def ElapsedMillis64.subAssign (e : ElapsedMillis64) (valMs : Int) : ElapsedMillis64 :=
  ⟨saturatingAdd e.us (millisToMicrosSaturated valMs)⟩

/-- Embeds ElapsedMillis64::operator+=(int64_t). -/
def ElapsedMillis64.addAssign (e : ElapsedMillis64) (valMs : Int) : ElapsedMillis64 :=
  ⟨saturatingSub e.us (millisToMicrosSaturated valMs)⟩

/-- Embeds the const binary ElapsedMillis64::operator-(int64_t). -/
def ElapsedMillis64.subBin (e : ElapsedMillis64) (valMs : Int) :
    ElapsedMillis64 × ElapsedMillis64 :=
  (e, ⟨saturatingAdd e.us (millisToMicrosSaturated valMs)⟩)

/-- Embeds the const binary ElapsedMillis64::operator+(int64_t). -/
def ElapsedMillis64.addBin (e : ElapsedMillis64) (valMs : Int) :
    ElapsedMillis64 × ElapsedMillis64 :=
  (e, ⟨saturatingSub e.us (millisToMicrosSaturated valMs)⟩)

/-- Embeds the ElapsedSeconds64 class: stores the baseline field _us. -/
structure ElapsedSeconds64 where
  us : Int
  deriving DecidableEq, Repr

/-- Embeds the ElapsedSeconds64(int64_t) constructor. -/
def ElapsedSeconds64.construct (nowUs valS : Int) : ElapsedSeconds64 :=
  ⟨saturatingSub nowUs (secondsToMicrosSaturated valS)⟩

/-- Embeds ElapsedSeconds64::operator int64_t. -/
def ElapsedSeconds64.read (nowUs : Int) (e : ElapsedSeconds64) : Int :=
  (saturatingSub nowUs e.us).tdiv 1000000

/-- Embeds ElapsedSeconds64::operator=(int64_t). -/
def ElapsedSeconds64.assign (nowUs valS : Int) : ElapsedSeconds64 :=
  ⟨saturatingSub nowUs (secondsToMicrosSaturated valS)⟩

/-- Embeds ElapsedSeconds64::operator-=(int64_t). -/
def ElapsedSeconds64.subAssign (e : ElapsedSeconds64) (valS : Int) : ElapsedSeconds64 :=
  ⟨saturatingAdd e.us (secondsToMicrosSaturated valS)⟩

/-- Embeds ElapsedSeconds64::operator+=(int64_t). -/
def ElapsedSeconds64.addAssign (e : ElapsedSeconds64) (valS : Int) : ElapsedSeconds64 :=
  ⟨saturatingSub e.us (secondsToMicrosSaturated valS)⟩

/-- Embeds the const binary ElapsedSeconds64::operator-(int64_t). -/
def ElapsedSeconds64.subBin (e : ElapsedSeconds64) (valS : Int) :
    ElapsedSeconds64 × ElapsedSeconds64 :=
  (e, ⟨saturatingAdd e.us (secondsToMicrosSaturated valS)⟩)

/-- Embeds the const binary ElapsedSeconds64::operator+(int64_t). -/
def ElapsedSeconds64.addBin (e : ElapsedSeconds64) (valS : Int) :
    ElapsedSeconds64 × ElapsedSeconds64 :=
  (e, ⟨saturatingSub e.us (secondsToMicrosSaturated valS)⟩)

end SystemChrono

namespace SystemChrono

/-- C1: for every pair of int64 values a and b, saturatingAdd(a,b) equals
the mathematical sum when that sum lies in the int64 range and otherwise
clamps to INT64_MAX when the true sum exceeds the positive range and to
INT64_MIN when it falls below the negative range; the symmetric property
holds for saturatingSub and saturatingMul; and saturatingMul(-1, INT64_MIN)
and saturatingMul(INT64_MIN, -1) both return INT64_MAX. -/
theorem saturating_arith_clamps_C1 (a b : Int)
    (ha : inInt64Range a) (hb : inInt64Range b) :
    (inInt64Range (a + b) → saturatingAdd a b = a + b) ∧
    (INT64_MAX_VALUE < a + b → saturatingAdd a b = INT64_MAX_VALUE) ∧
    (a + b < INT64_MIN_VALUE → saturatingAdd a b = INT64_MIN_VALUE) ∧
    (inInt64Range (a - b) → saturatingSub a b = a - b) ∧
    (INT64_MAX_VALUE < a - b → saturatingSub a b = INT64_MAX_VALUE) ∧
    (a - b < INT64_MIN_VALUE → saturatingSub a b = INT64_MIN_VALUE) ∧
    (inInt64Range (a * b) → saturatingMul a b = a * b) ∧
    (INT64_MAX_VALUE < a * b → saturatingMul a b = INT64_MAX_VALUE) ∧
    (a * b < INT64_MIN_VALUE → saturatingMul a b = INT64_MIN_VALUE) ∧
    saturatingMul (-1) INT64_MIN_VALUE = INT64_MAX_VALUE ∧
    saturatingMul INT64_MIN_VALUE (-1) = INT64_MAX_VALUE := by
  obtain ⟨ha1, ha2⟩ := ha
  obtain ⟨hb1, hb2⟩ := hb
  unfold INT64_MIN_VALUE INT64_MAX_VALUE at *
  refine ⟨?_, ?_, ?_, ?_, ?_, ?_, ?_, ?_, ?_, by decide, by decide⟩
  · intro h
    simp only [saturatingAdd, if_pos h]
  · intro h
    unfold saturatingAdd inInt64Range INT64_MIN_VALUE INT64_MAX_VALUE
    split_ifs with h1 h2 <;> omega
  · intro h
    unfold saturatingAdd inInt64Range INT64_MIN_VALUE INT64_MAX_VALUE
    split_ifs with h1 h2 <;> omega
  · intro h
    simp only [saturatingSub, if_pos h]
  · intro h
    unfold saturatingSub inInt64Range INT64_MIN_VALUE INT64_MAX_VALUE
    split_ifs with h1 h2 <;> omega
  · intro h
    unfold saturatingSub inInt64Range INT64_MIN_VALUE INT64_MAX_VALUE
    split_ifs with h1 h2 <;> omega
  · intro h
    simp only [saturatingMul, if_pos h]
  · intro h
    have hsign : (a < 0) = (b < 0) := by
      by_cases ha0 : a < 0 <;> by_cases hb0 : b < 0 <;> simp [ha0, hb0]
      · -- a < 0, b ≥ 0 makes the product nonpositive, contradicting overflow high
        nlinarith
      · -- a ≥ 0, b < 0 likewise
        nlinarith
    have hnr : ¬ inInt64Range (a * b) := by
      unfold inInt64Range INT64_MIN_VALUE INT64_MAX_VALUE
      intro hr
      exact absurd h (not_lt.mpr hr.2)
    unfold saturatingMul INT64_MAX_VALUE
    rw [if_neg hnr, if_pos hsign]
  · intro h
    have hsign : ¬ ((a < 0) = (b < 0)) := by
      by_cases ha0 : a < 0 <;> by_cases hb0 : b < 0 <;> simp [ha0, hb0]
      · -- both negative makes the product positive, contradicting overflow low
        nlinarith
      · -- both nonnegative likewise
        nlinarith
    have hnr : ¬ inInt64Range (a * b) := by
      unfold inInt64Range INT64_MIN_VALUE INT64_MAX_VALUE
      intro hr
      exact absurd h (not_lt.mpr hr.1)
    unfold saturatingMul INT64_MIN_VALUE
    rw [if_neg hnr, if_neg hsign]

/-- Witness for C1 at the concrete operands a = INT64_MAX and b = 1: the
sum overflows high and is clamped to INT64_MAX, while the difference and
product are exact. -/
theorem saturating_arith_clamps_C1_witness :
    saturatingAdd INT64_MAX_VALUE 1 = INT64_MAX_VALUE ∧
    saturatingSub INT64_MAX_VALUE 1 = INT64_MAX_VALUE - 1 ∧
    saturatingMul INT64_MAX_VALUE 1 = INT64_MAX_VALUE ∧
    saturatingMul (-1) INT64_MIN_VALUE = INT64_MAX_VALUE := by
  have h := saturating_arith_clamps_C1 INT64_MAX_VALUE 1 (by decide) (by decide)
  exact ⟨h.2.1 (by decide), h.2.2.2.1 (by decide),
    by simpa using h.2.2.2.2.2.2.1 (by decide), h.2.2.2.2.2.2.2.2.2.1⟩

end SystemChrono

namespace SystemChrono

/-- Helper: or-ing a multiple of the wrap span with a narrow reading is
plain addition. -/
theorem high_lor_eq_add (k b : Nat) (hb : b < 2 ^ 32) :
    (2 ^ 32 * k) ||| b = 2 ^ 32 * k + b :=
  (Nat.mul_add_lt_is_or hb k).symm

/-- C2: one call of the wrap-tracked time source that observes a reading
numerically below the last observed one adds 2^32 to the high
accumulator, stores the new reading, and returns the accumulator or-ed
with the reading; across such a wrap (and across any forward step) the
composed 64-bit value strictly increases; and the concrete wrap sequence
0xFFFFFFF0, 0xFFFFFFFF, 0x00000005 reconstructs strictly increasing
values. -/
theorem micros64_wrap_tracking_C2 :
    (∀ (s : ClockState) (r : Nat), s.last < 2 ^ 32 → s.high % 2 ^ 32 = 0 →
      s.high + 2 ^ 32 < 2 ^ 64 → r < 2 ^ 32 →
      (micros64Step s r).1.last = r ∧
      (r < s.last → (micros64Step s r).1.high = s.high + 2 ^ 32) ∧
      (micros64Step s r).2 = (micros64Step s r).1.high ||| r ∧
      (r < s.last → s.value < (micros64Step s r).2) ∧
      (s.last < r → s.value < (micros64Step s r).2)) ∧
    micros64Run ClockState.init [0xFFFFFFF0, 0xFFFFFFFF, 0x5] =
      [0xFFFFFFF0, 0xFFFFFFFF, 0x100000005] ∧
    List.Pairwise (· < ·)
      (micros64Run ClockState.init [0xFFFFFFF0, 0xFFFFFFFF, 0x5]) := by
  refine ⟨?_, by decide, by decide⟩
  intro s r hlast hmod hnohi hr
  obtain ⟨k, hk⟩ : 2 ^ 32 ∣ s.high := Nat.dvd_of_mod_eq_zero hmod
  have hr' : r % 2 ^ 32 = r := Nat.mod_eq_of_lt hr
  have hhi' : (s.high + 2 ^ 32) % 2 ^ 64 = s.high + 2 ^ 32 :=
    Nat.mod_eq_of_lt hnohi
  have hstep : micros64Step s r =
      (⟨r, if r < s.last then s.high + 2 ^ 32 else s.high⟩,
        (if r < s.last then s.high + 2 ^ 32 else s.high) ||| r) := by
    by_cases hwrap : r < s.last <;>
      simp only [micros64Step, hr', hhi', if_pos, if_neg, hwrap, ite_true,
        ite_false]
  refine ⟨by rw [hstep], fun hw => by rw [hstep]; simp [hw],
    by rw [hstep], fun hw => ?_, fun hw => ?_⟩
  · have hbump : 2 ^ 32 * k + 2 ^ 32 = 2 ^ 32 * (k + 1) := by ring
    rw [hstep]
    simp only [if_pos hw, ClockState.value]
    rw [hk, high_lor_eq_add k s.last hlast, hbump,
      high_lor_eq_add (k + 1) r hr]
    omega
  · have hnw : ¬ r < s.last := by omega
    rw [hstep]
    simp only [if_neg hnw, ClockState.value]
    rw [hk, high_lor_eq_add k s.last hlast, high_lor_eq_add k r hr]
    omega

end SystemChrono

namespace SystemChrono

/-- Witness for C2 at the wrap step of the example sequence: from last
observed reading 0xFFFFFFFF with zero accumulator, reading 5 bumps the
accumulator by one wrap span and the composed value strictly increases. -/
theorem micros64_wrap_tracking_C2_witness :
    (micros64Step ⟨0xFFFFFFFF, 0⟩ 5).1.high = 0 + 2 ^ 32 ∧
    (micros64Step ⟨0xFFFFFFFF, 0⟩ 5).1.last = 5 ∧
    ClockState.value ⟨0xFFFFFFFF, 0⟩ < (micros64Step ⟨0xFFFFFFFF, 0⟩ 5).2 := by
  have h := micros64_wrap_tracking_C2.1 ⟨0xFFFFFFFF, 0⟩ 5
    (by decide) (by decide) (by decide) (by decide)
  exact ⟨h.2.1 (by decide), h.1, h.2.2.2.1 (by decide)⟩

/-- Helper: the overflow-safe absolute value is the natural absolute
value on the whole int64 range. -/
theorem absToUnsigned_eq_natAbs (m : Int) (hm : inInt64Range m) :
    absToUnsigned m = m.natAbs := by
  unfold absToUnsigned inInt64Range INT64_MIN_VALUE INT64_MAX_VALUE at *
  split_ifs <;> omega

/-- Helper: the overflow-safe absolute value of an int64 is at most 2^63. -/
theorem absToUnsigned_le (m : Int) (hm : inInt64Range m) :
    absToUnsigned m ≤ 2 ^ 63 := by
  unfold absToUnsigned inInt64Range INT64_MIN_VALUE INT64_MAX_VALUE at *
  split_ifs <;> omega

/-- Helper: printf 02llu rendering of a field below 100 has 2 digits. -/
theorem pad2_length (n : Nat) (h : n < 100) : (pad2 n).length = 2 := by
  revert h
  revert n
  decide

set_option maxRecDepth 4000 in
/-- Helper: printf 03llu rendering of a field below 1000 has 3 digits. -/
theorem pad3_length (n : Nat) (h : n < 1000) : (pad3 n).length = 3 := by
  revert h
  revert n
  decide

/-- Helper: a rendered duration never exceeds 21 characters for int64
inputs (sign, at most 10 hour digits, separators and padded fields). -/
theorem renderTime_length_le (m : Int) (hm : inInt64Range m) :
    (renderTime m).length ≤ 21 := by
  have htot : absToUnsigned m ≤ 2 ^ 63 := absToUnsigned_le m hm
  simp only [renderTime]
  have hh : absToUnsigned m / 1000 / 3600000 < 10 ^ 10 := by omega
  have hhl : (Nat.repr (absToUnsigned m / 1000 / 3600000)).length ≤ 10 :=
    Nat.repr_length _ 10 (by norm_num) hh
  have hm2 : (pad2 ((absToUnsigned m / 1000 / 60000) % 60)).length = 2 :=
    pad2_length _ (by omega)
  have hs2 : (pad2 ((absToUnsigned m / 1000 / 1000) % 60)).length = 2 :=
    pad2_length _ (by omega)
  have hms3 : (pad3 (absToUnsigned m / 1000 % 1000)).length = 3 :=
    pad3_length _ (by omega)
  have hf : ("-" : String).length = 1 := rfl
  have hg : (":" : String).length = 1 := rfl
  have hd : ("." : String).length = 1 := rfl
  have he : ("" : String).length = 0 := rfl
  split_ifs <;>
    simp only [String.length_append, hm2, hs2, hms3, hf, hg, hd, he] <;>
    omega

/-- Helper: formatTimeTo on a non-null buffer of sufficient capacity
succeeds and writes the rendered string. -/
theorem formatTimeTo_success (m : Int) (outLen : Nat)
    (h2 : ¬ outLen < TIME_FORMAT_BUFFER_SIZE)
    (h3 : (renderTime m).length < outLen) :
    formatTimeTo m false outLen = (Ok, .written (renderTime m)) := by
  simp only [formatTimeTo]
  rw [if_neg (by simp; unfold TIME_FORMAT_BUFFER_SIZE at h2; omega),
    if_neg h2, if_neg (not_le.mpr h3)]

end SystemChrono

namespace SystemChrono

/-- C3: formatting INT64_MIN microseconds into a sufficiently large
buffer succeeds without undefined behaviour: the overflow-safe absolute
value maps INT64_MIN to 2^63, and the produced string carries a leading
minus sign and the hour, minute, second and millisecond fields of a
magnitude of 2^63 microseconds. -/
theorem format_int64_min_no_ub_C3 (outLen : Nat)
    (h : TIME_FORMAT_BUFFER_SIZE ≤ outLen) :
    absToUnsigned INT64_MIN_VALUE = 2 ^ 63 ∧
    formatTimeTo INT64_MIN_VALUE false outLen =
      (Ok, BufState.written "-2562047788:00:54.775") ∧
    absToUnsigned INT64_MIN_VALUE / 1000 / 3600000 = 2562047788 ∧
    absToUnsigned INT64_MIN_VALUE / 1000 / 60000 % 60 = 0 ∧
    absToUnsigned INT64_MIN_VALUE / 1000 / 1000 % 60 = 54 ∧
    absToUnsigned INT64_MIN_VALUE / 1000 % 1000 = 775 := by
  have h32 : TIME_FORMAT_BUFFER_SIZE = 32 := rfl
  have hrender : renderTime INT64_MIN_VALUE = "-2562047788:00:54.775" := by
    decide
  have hlen : (renderTime INT64_MIN_VALUE).length = 21 := by rw [hrender]; rfl
  refine ⟨by decide, ?_, by decide, by decide, by decide, by decide⟩
  rw [formatTimeTo_success INT64_MIN_VALUE outLen (by omega) (by omega),
    hrender]

/-- Witness for C3 at the exact minimum capacity of 32 bytes. -/
theorem format_int64_min_no_ub_C3_witness :
    formatTimeTo INT64_MIN_VALUE false 32 =
      (Ok, BufState.written "-2562047788:00:54.775") :=
  (format_int64_min_no_ub_C3 32 (by decide)).2.1

/-- C4: for every int64 microsecond input formatted into a sufficiently
large buffer the output has the shape sign, unpadded hours, colon,
2-digit minutes, colon, 2-digit seconds, dot, 3-digit milliseconds, with
the minus sign present exactly when the input is negative, and the fields
decompose the total millisecond magnitude; in particular 0 formats as
0:00:00.000 and -1234567 as -0:00:01.234. -/
theorem format_shape_C4 (m : Int) (outLen : Nat)
    (hm : inInt64Range m) (hlen : TIME_FORMAT_BUFFER_SIZE ≤ outLen) :
    (∃ h mi s ms : Nat, mi < 60 ∧ s < 60 ∧ ms < 1000 ∧
      absToUnsigned m / 1000 = 3600000 * h + 60000 * mi + 1000 * s + ms ∧
      (pad2 mi).length = 2 ∧ (pad2 s).length = 2 ∧ (pad3 ms).length = 3 ∧
      formatTimeTo m false outLen =
        (Ok, BufState.written ((if m < 0 then "-" else "") ++ Nat.repr h ++
          ":" ++ pad2 mi ++ ":" ++ pad2 s ++ "." ++ pad3 ms))) ∧
    formatTimeTo 0 false outLen = (Ok, BufState.written "0:00:00.000") ∧
    formatTimeTo (-1234567) false outLen =
      (Ok, BufState.written "-0:00:01.234") := by
  have h32 : TIME_FORMAT_BUFFER_SIZE = 32 := rfl
  have hsucc : formatTimeTo m false outLen = (Ok, .written (renderTime m)) :=
    formatTimeTo_success m outLen (by omega)
      (by have := renderTime_length_le m hm; omega)
  refine ⟨?_, ?_, ?_⟩
  · refine ⟨absToUnsigned m / 1000 / 3600000, absToUnsigned m / 1000 / 60000 % 60,
      absToUnsigned m / 1000 / 1000 % 60, absToUnsigned m / 1000 % 1000,
      by omega, by omega, by omega, by omega, pad2_length _ (by omega),
      pad2_length _ (by omega), pad3_length _ (by omega), ?_⟩
    rw [hsucc]
    simp only [renderTime]
  · have hr0 : renderTime 0 = "0:00:00.000" := by decide
    have hl0 : (renderTime 0).length = 11 := by rw [hr0]; rfl
    rw [formatTimeTo_success 0 outLen (by omega) (by omega), hr0]
  · have hrn : renderTime (-1234567) = "-0:00:01.234" := by decide
    have hln : (renderTime (-1234567)).length = 12 := by rw [hrn]; rfl
    rw [formatTimeTo_success (-1234567) outLen (by omega) (by omega), hrn]

/-- Witness for C4 at input -1234567 with a 32-byte buffer. -/
theorem format_shape_C4_witness :
    formatTimeTo (-1234567) false 32 = (Ok, BufState.written "-0:00:01.234") :=
  (format_shape_C4 (-1234567) 32 (by decide) (by decide)).2.2

/-- C5: formatTimeTo fails with Err INVALID_CONFIG leaving the buffer
untouched when the pointer is null or the capacity zero; fails with the
same kind when the capacity is below the minimum constant, reporting the
required capacity in the detail field with the first byte NUL-terminated;
and succeeds only having written a NUL-terminated string that fits. -/
theorem format_error_contract_C5 :
    (∀ (m : Int) (outLen : Nat),
      formatTimeTo m true outLen =
        (⟨Err.INVALID_CONFIG, 0, "Output buffer is null or empty"⟩,
          BufState.untouched)) ∧
    (∀ m : Int, formatTimeTo m false 0 =
        (⟨Err.INVALID_CONFIG, 0, "Output buffer is null or empty"⟩,
          BufState.untouched)) ∧
    (∀ (m : Int) (outLen : Nat), 0 < outLen → outLen < TIME_FORMAT_BUFFER_SIZE →
      formatTimeTo m false outLen =
        (⟨Err.INVALID_CONFIG, (TIME_FORMAT_BUFFER_SIZE : Int),
          "Output buffer too small"⟩, BufState.terminated)) ∧
    (∀ (m : Int) (isNull : Bool) (outLen : Nat),
      ((formatTimeTo m isNull outLen).1).ok = true →
      ∃ str, (formatTimeTo m isNull outLen).2 = BufState.written str ∧
        str.length < outLen) := by
  refine ⟨?_, ?_, ?_, ?_⟩
  · intro m outLen
    simp [formatTimeTo]
  · intro m
    simp [formatTimeTo]
  · intro m outLen h0 hlt
    simp only [formatTimeTo]
    rw [if_neg (by simp; omega), if_pos hlt]
  · intro m isNull outLen hok
    simp only [formatTimeTo] at hok ⊢
    split_ifs at hok ⊢ with h1 h2 h3
    · simp [Status.ok] at hok
    · simp [Status.ok] at hok
    · simp [Status.ok] at hok
    · exact ⟨renderTime m, rfl, by omega⟩

/-- Witness for C5: a null buffer, an undersized 31-byte buffer and a
32-byte buffer at input 0. -/
theorem format_error_contract_C5_witness :
    formatTimeTo 0 true 64 =
      (⟨Err.INVALID_CONFIG, 0, "Output buffer is null or empty"⟩,
        BufState.untouched) ∧
    formatTimeTo 0 false 31 =
      (⟨Err.INVALID_CONFIG, (TIME_FORMAT_BUFFER_SIZE : Int),
        "Output buffer too small"⟩, BufState.terminated) ∧
    ∃ str, (formatTimeTo 0 false 32).2 = BufState.written str ∧
      str.length < 32 :=
  ⟨format_error_contract_C5.1 0 64,
    format_error_contract_C5.2.2.1 0 31 (by decide) (by decide),
    format_error_contract_C5.2.2.2 0 false 32 (by decide)⟩

end SystemChrono

namespace SystemChrono

/-- Helper: saturatingSub is exact on representable differences. -/
theorem saturatingSub_exact (a b : Int) (h : inInt64Range (a - b)) :
    saturatingSub a b = a - b := if_pos h

/-- Helper: saturatingAdd is exact on representable sums. -/
theorem saturatingAdd_exact (a b : Int) (h : inInt64Range (a + b)) :
    saturatingAdd a b = a + b := if_pos h

/-- Helper: saturatingMul is exact on representable products. -/
theorem saturatingMul_exact (a b : Int) (h : inInt64Range (a * b)) :
    saturatingMul a b = a * b := if_pos h

/-- Helper: truncating division by a positive divisor keeps an int64
value inside the int64 range. -/
theorem tdiv_preserves_range (a b : Int) (hb : 0 < b) (ha : inInt64Range a) :
    inInt64Range (a.tdiv b) := by
  obtain ⟨h1, h2⟩ := ha
  unfold inInt64Range INT64_MIN_VALUE INT64_MAX_VALUE at *
  rcases le_or_lt 0 a with h0 | h0
  · have hnn : 0 ≤ a.tdiv b := Int.tdiv_nonneg h0 (le_of_lt hb)
    have hle : a.tdiv b ≤ a := by
      rw [Int.tdiv_eq_ediv h0 (le_of_lt hb)]
      exact Int.ediv_le_self b h0
    constructor <;> omega
  · have hneg : a.tdiv b = -((-a).tdiv b) := by
      rw [Int.neg_tdiv, neg_neg]
    have hnn : 0 ≤ (-a).tdiv b := Int.tdiv_nonneg (by omega) (le_of_lt hb)
    have hle : (-a).tdiv b ≤ -a := by
      rw [Int.tdiv_eq_ediv (by omega) (le_of_lt hb)]
      exact Int.ediv_le_self b (by omega)
    constructor <;> omega

/-- Helper: a saturating subtraction with a lhs no smaller than INT64_MIN
and a strictly larger rhs is negative (underflow lands on INT64_MIN). -/
theorem saturatingSub_neg_of_lt (a b : Int)
    (ha : INT64_MIN_VALUE ≤ a) (hab : a < b) : saturatingSub a b < 0 := by
  unfold saturatingSub inInt64Range INT64_MIN_VALUE INT64_MAX_VALUE at *
  split_ifs with h1 h2 <;> omega

/-- C6: microsSince is the saturating subtraction of the stored start
from the current microsecond reading, millisSince and secondsSince are
the analogous saturating subtractions against millis64 and seconds64,
and a start strictly in the future of the matching accessor yields a
negative result rather than a wrapped one. -/
theorem since_helpers_saturating_C6 (nowUs start : Int)
    (hn : inInt64Range nowUs) :
    microsSince nowUs start = saturatingSub nowUs start ∧
    millisSince nowUs start = saturatingSub (millis64 nowUs) start ∧
    secondsSince nowUs start = saturatingSub (seconds64 nowUs) start ∧
    (nowUs < start → microsSince nowUs start < 0) ∧
    (millis64 nowUs < start → millisSince nowUs start < 0) ∧
    (seconds64 nowUs < start → secondsSince nowUs start < 0) := by
  have hm : inInt64Range (millis64 nowUs) :=
    tdiv_preserves_range nowUs 1000 (by norm_num) hn
  have hs : inInt64Range (seconds64 nowUs) :=
    tdiv_preserves_range nowUs 1000000 (by norm_num) hn
  exact ⟨rfl, rfl, rfl,
    fun h => saturatingSub_neg_of_lt nowUs start hn.1 h,
    fun h => saturatingSub_neg_of_lt (millis64 nowUs) start hm.1 h,
    fun h => saturatingSub_neg_of_lt (seconds64 nowUs) start hs.1 h⟩

/-- Witness for C6 with the clock at 1000 and a future start of 5000. -/
theorem since_helpers_saturating_C6_witness :
    microsSince 1000 5000 = saturatingSub 1000 5000 ∧
    microsSince 1000 5000 < 0 := by
  have h := since_helpers_saturating_C6 1000 5000 (by decide)
  exact ⟨h.1, h.2.2.2.1 (by decide)⟩

end SystemChrono

namespace SystemChrono

/-- C7: each auto-elapsed type constructs with baseline
saturatingSub(now, v * unitScale) computed with saturating multiply,
reads saturatingSub(now, baseline) divided (truncating) by unitScale,
and assignment re-bases exactly as construction; under a mocked clock,
constructing with 0 and advancing by 1500000 microseconds reads 1500000,
1500 and 1 for the micro, milli and second types, and assigning 0 makes
an immediate read return 0 regardless of the prior baseline. -/
theorem auto_elapsed_semantics_C7 :
    (∀ nowUs v : Int,
      (ElapsedMicros64.construct nowUs v).us = saturatingSub nowUs v ∧
      (ElapsedMillis64.construct nowUs v).us =
        saturatingSub nowUs (saturatingMul v 1000) ∧
      (ElapsedSeconds64.construct nowUs v).us =
        saturatingSub nowUs (saturatingMul v 1000000) ∧
      ElapsedMicros64.assign nowUs v = ElapsedMicros64.construct nowUs v ∧
      ElapsedMillis64.assign nowUs v = ElapsedMillis64.construct nowUs v ∧
      ElapsedSeconds64.assign nowUs v = ElapsedSeconds64.construct nowUs v) ∧
    (∀ (nowUs : Int) (e : ElapsedMillis64),
      ElapsedMillis64.read nowUs e = (saturatingSub nowUs e.us).tdiv 1000) ∧
    (∀ (nowUs : Int) (e : ElapsedSeconds64),
      ElapsedSeconds64.read nowUs e = (saturatingSub nowUs e.us).tdiv 1000000) ∧
    (∀ t0 : Int, 0 ≤ t0 → t0 + 1500000 ≤ INT64_MAX_VALUE →
      ElapsedMicros64.read (t0 + 1500000) (ElapsedMicros64.construct t0 0) =
        1500000 ∧
      ElapsedMillis64.read (t0 + 1500000) (ElapsedMillis64.construct t0 0) =
        1500 ∧
      ElapsedSeconds64.read (t0 + 1500000) (ElapsedSeconds64.construct t0 0) =
        1) ∧
    (∀ nowUs : Int, inInt64Range nowUs →
      ElapsedMicros64.read nowUs (ElapsedMicros64.assign nowUs 0) = 0 ∧
      ElapsedMillis64.read nowUs (ElapsedMillis64.assign nowUs 0) = 0 ∧
      ElapsedSeconds64.read nowUs (ElapsedSeconds64.assign nowUs 0) = 0) := by
  refine ⟨fun nowUs v => ⟨rfl, rfl, rfl, rfl, rfl, rfl⟩,
    fun nowUs e => rfl, fun nowUs e => rfl, ?_, ?_⟩
  · intro t0 h0 h1
    unfold INT64_MAX_VALUE at h1
    have hbase : saturatingSub t0 0 = t0 := by
      rw [saturatingSub_exact t0 0
        (by unfold inInt64Range INT64_MIN_VALUE INT64_MAX_VALUE; omega)]
      ring
    have hdiff : saturatingSub (t0 + 1500000) t0 = 1500000 := by
      rw [saturatingSub_exact (t0 + 1500000) t0
        (by unfold inInt64Range INT64_MIN_VALUE INT64_MAX_VALUE; omega)]
      ring
    have hm0 : millisToMicrosSaturated 0 = 0 := by decide
    have hs0 : secondsToMicrosSaturated 0 = 0 := by decide
    refine ⟨?_, ?_, ?_⟩
    · unfold ElapsedMicros64.read ElapsedMicros64.construct
      rw [hbase, hdiff]
    · unfold ElapsedMillis64.read ElapsedMillis64.construct
      rw [hm0, hbase, hdiff]
      decide
    · unfold ElapsedSeconds64.read ElapsedSeconds64.construct
      rw [hs0, hbase, hdiff]
      decide
  · intro nowUs hn
    obtain ⟨hn1, hn2⟩ := hn
    have hbase : saturatingSub nowUs 0 = nowUs := by
      rw [saturatingSub_exact nowUs 0
        (by unfold inInt64Range INT64_MIN_VALUE INT64_MAX_VALUE at *; omega)]
      ring
    have hself : saturatingSub nowUs nowUs = 0 := by
      rw [saturatingSub_exact nowUs nowUs
        (by unfold inInt64Range INT64_MIN_VALUE INT64_MAX_VALUE; omega)]
      ring
    have hm0 : millisToMicrosSaturated 0 = 0 := by decide
    have hs0 : secondsToMicrosSaturated 0 = 0 := by decide
    refine ⟨?_, ?_, ?_⟩
    · unfold ElapsedMicros64.read ElapsedMicros64.assign
      rw [hbase, hself]
    · unfold ElapsedMillis64.read ElapsedMillis64.assign
      rw [hm0, hbase, hself]
      decide
    · unfold ElapsedSeconds64.read ElapsedSeconds64.assign
      rw [hs0, hbase, hself]
      decide

/-- Witness for C7 with the mocked clock starting at 0 and advanced to
1500000 microseconds. -/
theorem auto_elapsed_semantics_C7_witness :
    ElapsedMicros64.read 1500000 (ElapsedMicros64.construct 0 0) = 1500000 ∧
    ElapsedMillis64.read 1500000 (ElapsedMillis64.construct 0 0) = 1500 ∧
    ElapsedSeconds64.read 1500000 (ElapsedSeconds64.construct 0 0) = 1 ∧
    ElapsedMillis64.read 77 (ElapsedMillis64.assign 77 0) = 0 := by
  have h1 := auto_elapsed_semantics_C7.2.2.2.1 0 (by decide) (by decide)
  have h2 := auto_elapsed_semantics_C7.2.2.2.2 77 (by decide)
  refine ⟨?_, ?_, ?_, h2.2.1⟩
  · simpa using h1.1
  · simpa using h1.2.1
  · simpa using h1.2.2

end SystemChrono

namespace SystemChrono

/-- Helper: truncating division distributes over adding a multiple of the
divisor as long as both numerators are nonnegative. -/
theorem tdiv_add_mul_right (x d s : Int) (hs : 0 < s) (hx : 0 ≤ x)
    (hxd : 0 ≤ x + d * s) : (x + d * s).tdiv s = x.tdiv s + d := by
  rw [Int.tdiv_eq_ediv hx (le_of_lt hs), Int.tdiv_eq_ediv hxd (le_of_lt hs),
    Int.add_mul_ediv_right x d (ne_of_gt hs)]

/-- C8 counterexample: for ElapsedMillis64 with baseline 1, clock 0 and
shift amount 1, every arithmetic step is exact (no saturation occurs),
yet the read after the compound plus-assign equals the read before it
rather than one more: the truncating division loses the sub-unit
fraction when the elapsed count crosses zero. -/
theorem elapsed_shift_read_C8_counterexample :
    saturatingMul 1 1000 = 1000 ∧
    saturatingSub (1 : Int) 1000 = -999 ∧
    saturatingSub (0 : Int) (-999) = 999 ∧
    saturatingSub (0 : Int) 1 = -1 ∧
    ElapsedMillis64.read 0 (ElapsedMillis64.addAssign ⟨1⟩ 1) = 0 ∧
    ElapsedMillis64.read 0 ⟨(1 : Int)⟩ = 0 ∧
    ¬ (ElapsedMillis64.read 0 (ElapsedMillis64.addAssign ⟨1⟩ 1) =
        ElapsedMillis64.read 0 ⟨(1 : Int)⟩ + 1) := by
  decide

/-- C8 (amended): the compound plus-assign moves the baseline by
saturatingSub with the saturated scaled amount and minus-assign by
saturatingAdd, for all three auto-elapsed types; absent saturation and
with the clock unchanged, the microsecond type reads exactly d more
after plus-assign d and d fewer after minus-assign d, and the milli and
second types do so provided additionally that the underlying elapsed
microsecond counts before and after the shift are both nonnegative. -/
theorem elapsed_shift_ops_C8 :
    (∀ (e : ElapsedMicros64) (d : Int),
      ElapsedMicros64.addAssign e d = ⟨saturatingSub e.us d⟩ ∧
      ElapsedMicros64.subAssign e d = ⟨saturatingAdd e.us d⟩) ∧
    (∀ (e : ElapsedMillis64) (d : Int),
      ElapsedMillis64.addAssign e d =
        ⟨saturatingSub e.us (saturatingMul d 1000)⟩ ∧
      ElapsedMillis64.subAssign e d =
        ⟨saturatingAdd e.us (saturatingMul d 1000)⟩) ∧
    (∀ (e : ElapsedSeconds64) (d : Int),
      ElapsedSeconds64.addAssign e d =
        ⟨saturatingSub e.us (saturatingMul d 1000000)⟩ ∧
      ElapsedSeconds64.subAssign e d =
        ⟨saturatingAdd e.us (saturatingMul d 1000000)⟩) ∧
    (∀ (e : ElapsedMicros64) (d nowUs : Int),
      inInt64Range (e.us - d) → inInt64Range (nowUs - e.us) →
      inInt64Range (nowUs - e.us + d) →
      ElapsedMicros64.read nowUs (ElapsedMicros64.addAssign e d) =
        ElapsedMicros64.read nowUs e + d) ∧
    (∀ (e : ElapsedMicros64) (d nowUs : Int),
      inInt64Range (e.us + d) → inInt64Range (nowUs - e.us) →
      inInt64Range (nowUs - e.us - d) →
      ElapsedMicros64.read nowUs (ElapsedMicros64.subAssign e d) =
        ElapsedMicros64.read nowUs e - d) ∧
    (∀ (e : ElapsedMillis64) (d nowUs : Int),
      inInt64Range (d * 1000) → inInt64Range (e.us - d * 1000) →
      inInt64Range (nowUs - e.us) → inInt64Range (nowUs - e.us + d * 1000) →
      0 ≤ nowUs - e.us → 0 ≤ nowUs - e.us + d * 1000 →
      ElapsedMillis64.read nowUs (ElapsedMillis64.addAssign e d) =
        ElapsedMillis64.read nowUs e + d) ∧
    (∀ (e : ElapsedMillis64) (d nowUs : Int),
      inInt64Range (d * 1000) → inInt64Range (e.us + d * 1000) →
      inInt64Range (nowUs - e.us) → inInt64Range (nowUs - e.us - d * 1000) →
      0 ≤ nowUs - e.us → 0 ≤ nowUs - e.us - d * 1000 →
      ElapsedMillis64.read nowUs (ElapsedMillis64.subAssign e d) =
        ElapsedMillis64.read nowUs e - d) ∧
    (∀ (e : ElapsedSeconds64) (d nowUs : Int),
      inInt64Range (d * 1000000) → inInt64Range (e.us - d * 1000000) →
      inInt64Range (nowUs - e.us) → inInt64Range (nowUs - e.us + d * 1000000) →
      0 ≤ nowUs - e.us → 0 ≤ nowUs - e.us + d * 1000000 →
      ElapsedSeconds64.read nowUs (ElapsedSeconds64.addAssign e d) =
        ElapsedSeconds64.read nowUs e + d) ∧
    (∀ (e : ElapsedSeconds64) (d nowUs : Int),
      inInt64Range (d * 1000000) → inInt64Range (e.us + d * 1000000) →
      inInt64Range (nowUs - e.us) → inInt64Range (nowUs - e.us - d * 1000000) →
      0 ≤ nowUs - e.us → 0 ≤ nowUs - e.us - d * 1000000 →
      ElapsedSeconds64.read nowUs (ElapsedSeconds64.subAssign e d) =
        ElapsedSeconds64.read nowUs e - d) := by
  refine ⟨fun e d => ⟨rfl, rfl⟩, fun e d => ⟨rfl, rfl⟩, fun e d => ⟨rfl, rfl⟩,
    ?_, ?_, ?_, ?_, ?_, ?_⟩
  · intro e d nowUs h1 h2 h3
    unfold ElapsedMicros64.read ElapsedMicros64.addAssign
    rw [saturatingSub_exact e.us d h1, saturatingSub_exact nowUs e.us h2,
      saturatingSub_exact nowUs (e.us - d)
        (by unfold inInt64Range INT64_MIN_VALUE INT64_MAX_VALUE at *; omega)]
    ring
  · intro e d nowUs h1 h2 h3
    unfold ElapsedMicros64.read ElapsedMicros64.subAssign
    rw [saturatingAdd_exact e.us d h1, saturatingSub_exact nowUs e.us h2,
      saturatingSub_exact nowUs (e.us + d)
        (by unfold inInt64Range INT64_MIN_VALUE INT64_MAX_VALUE at *; omega)]
    ring
  · intro e d nowUs h1 h2 h3 h4 h5 h6
    unfold ElapsedMillis64.read ElapsedMillis64.addAssign
      millisToMicrosSaturated
    rw [saturatingMul_exact d 1000 h1, saturatingSub_exact e.us (d * 1000) h2,
      saturatingSub_exact nowUs e.us h3,
      saturatingSub_exact nowUs (e.us - d * 1000)
        (by unfold inInt64Range INT64_MIN_VALUE INT64_MAX_VALUE at *; omega)]
    have harr : nowUs - (e.us - d * 1000) = (nowUs - e.us) + d * 1000 := by ring
    rw [harr, tdiv_add_mul_right (nowUs - e.us) d 1000 (by norm_num) h5 h6]
  · intro e d nowUs h1 h2 h3 h4 h5 h6
    unfold ElapsedMillis64.read ElapsedMillis64.subAssign
      millisToMicrosSaturated
    rw [saturatingMul_exact d 1000 h1, saturatingAdd_exact e.us (d * 1000) h2,
      saturatingSub_exact nowUs e.us h3,
      saturatingSub_exact nowUs (e.us + d * 1000)
        (by unfold inInt64Range INT64_MIN_VALUE INT64_MAX_VALUE at *; omega)]
    have harr : nowUs - (e.us + d * 1000) = (nowUs - e.us) + (-d) * 1000 := by
      ring
    rw [harr, tdiv_add_mul_right (nowUs - e.us) (-d) 1000 (by norm_num) h5
      (by omega)]
    ring
  · intro e d nowUs h1 h2 h3 h4 h5 h6
    unfold ElapsedSeconds64.read ElapsedSeconds64.addAssign
      secondsToMicrosSaturated
    rw [saturatingMul_exact d 1000000 h1,
      saturatingSub_exact e.us (d * 1000000) h2,
      saturatingSub_exact nowUs e.us h3,
      saturatingSub_exact nowUs (e.us - d * 1000000)
        (by unfold inInt64Range INT64_MIN_VALUE INT64_MAX_VALUE at *; omega)]
    have harr : nowUs - (e.us - d * 1000000) = (nowUs - e.us) + d * 1000000 := by
      ring
    rw [harr, tdiv_add_mul_right (nowUs - e.us) d 1000000 (by norm_num) h5 h6]
  · intro e d nowUs h1 h2 h3 h4 h5 h6
    unfold ElapsedSeconds64.read ElapsedSeconds64.subAssign
      secondsToMicrosSaturated
    rw [saturatingMul_exact d 1000000 h1,
      saturatingAdd_exact e.us (d * 1000000) h2,
      saturatingSub_exact nowUs e.us h3,
      saturatingSub_exact nowUs (e.us + d * 1000000)
        (by unfold inInt64Range INT64_MIN_VALUE INT64_MAX_VALUE at *; omega)]
    have harr : nowUs - (e.us + d * 1000000) = (nowUs - e.us) + (-d) * 1000000 := by
      ring
    rw [harr, tdiv_add_mul_right (nowUs - e.us) (-d) 1000000 (by norm_num) h5
      (by omega)]
    ring

/-- Witness for C8 with a millisecond timer at baseline 0, clock 5000
and shift 2: the read goes from 0 to 2 after plus-assign. -/
theorem elapsed_shift_ops_C8_witness :
    ElapsedMillis64.read 5000 (ElapsedMillis64.addAssign ⟨0⟩ 2) =
      ElapsedMillis64.read 5000 ⟨(0 : Int)⟩ + 2 :=
  elapsed_shift_ops_C8.2.2.2.2.2.1 ⟨0⟩ 2 5000 (by decide) (by decide)
    (by decide) (by decide) (by decide) (by decide)

end SystemChrono

namespace SystemChrono

/-- C9: under a mocked clock the stopwatch measures 500000 microseconds
after start, a 500000 advance and stop; 750000 in total after resume, a
250000 advance and stop; reset while running makes an immediate read
return 0; and stop when already stopped leaves the state unchanged. -/
theorem stopwatch_scenario_C9 :
    (∀ t0 n : Int,
      ((Stopwatch.init.startAt t0).stop (t0 + 500000)).elapsedMicros n =
        500000) ∧
    (∀ t0 t1 n : Int,
      ((((Stopwatch.init.startAt t0).stop (t0 + 500000)).resume t1).stop
        (t1 + 250000)).elapsedMicros n = 750000) ∧
    (∀ (sw : Stopwatch) (n : Int), sw.running = true →
      (sw.reset n).elapsedMicros n = 0) ∧
    (∀ (sw : Stopwatch) (n : Int), sw.running = false → sw.stop n = sw) := by
  have hadd0 : ∀ x : Int, inInt64Range x → saturatingAdd 0 x = x := by
    intro x hx
    rw [saturatingAdd_exact 0 x (by unfold inInt64Range at *; omega)]
    ring
  refine ⟨?_, ?_, ?_, ?_⟩
  · intro t0 n
    have hsub : saturatingSub (t0 + 500000) t0 = 500000 := by
      rw [saturatingSub_exact (t0 + 500000) t0
        (by unfold inInt64Range INT64_MIN_VALUE INT64_MAX_VALUE; omega)]
      ring
    simp [Stopwatch.init, Stopwatch.startAt, Stopwatch.stop,
      Stopwatch.elapsedMicros, microsSince, hsub,
      hadd0 500000 (by decide)]
  · intro t0 t1 n
    have hsub1 : saturatingSub (t0 + 500000) t0 = 500000 := by
      rw [saturatingSub_exact (t0 + 500000) t0
        (by unfold inInt64Range INT64_MIN_VALUE INT64_MAX_VALUE; omega)]
      ring
    have hsub2 : saturatingSub (t1 + 250000) t1 = 250000 := by
      rw [saturatingSub_exact (t1 + 250000) t1
        (by unfold inInt64Range INT64_MIN_VALUE INT64_MAX_VALUE; omega)]
      ring
    have hadd : saturatingAdd 500000 250000 = 750000 := by decide
    simp [Stopwatch.init, Stopwatch.startAt, Stopwatch.stop, Stopwatch.resume,
      Stopwatch.elapsedMicros, microsSince, hsub1, hsub2, hadd,
      hadd0 500000 (by decide)]
  · intro sw n hrun
    have hself : saturatingSub n n = 0 := by
      rw [saturatingSub_exact n n
        (by unfold inInt64Range INT64_MIN_VALUE INT64_MAX_VALUE; omega)]
      ring
    simp [Stopwatch.reset, Stopwatch.elapsedMicros, microsSince, hrun,
      hself, hadd0 0 (by decide)]
  · intro sw n hstop
    simp [Stopwatch.stop, hstop]

/-- Witness for C9 with the clock starting at 0 for both segments and a
concrete stopped stopwatch. -/
theorem stopwatch_scenario_C9_witness :
    (Stopwatch.reset ⟨3, 7, true⟩ 42).elapsedMicros 42 = 0 ∧
    Stopwatch.stop ⟨3, 7, false⟩ 42 = ⟨3, 7, false⟩ :=
  ⟨stopwatch_scenario_C9.2.2.1 ⟨3, 7, true⟩ 42 rfl,
    stopwatch_scenario_C9.2.2.2 ⟨3, 7, false⟩ 42 rfl⟩

/-- C10: the const binary minus and plus operators of the three
auto-elapsed types leave the receiver untouched and return a fresh copy
whose baseline is shifted exactly as the corresponding compound
operator shifts its receiver. -/
theorem binary_ops_pure_C10 :
    (∀ (e : ElapsedMicros64) (d : Int),
      (ElapsedMicros64.subBin e d).1 = e ∧
      (ElapsedMicros64.subBin e d).2 = ElapsedMicros64.subAssign e d ∧
      (ElapsedMicros64.addBin e d).1 = e ∧
      (ElapsedMicros64.addBin e d).2 = ElapsedMicros64.addAssign e d) ∧
    (∀ (e : ElapsedMillis64) (d : Int),
      (ElapsedMillis64.subBin e d).1 = e ∧
      (ElapsedMillis64.subBin e d).2 = ElapsedMillis64.subAssign e d ∧
      (ElapsedMillis64.addBin e d).1 = e ∧
      (ElapsedMillis64.addBin e d).2 = ElapsedMillis64.addAssign e d) ∧
    (∀ (e : ElapsedSeconds64) (d : Int),
      (ElapsedSeconds64.subBin e d).1 = e ∧
      (ElapsedSeconds64.subBin e d).2 = ElapsedSeconds64.subAssign e d ∧
      (ElapsedSeconds64.addBin e d).1 = e ∧
      (ElapsedSeconds64.addBin e d).2 = ElapsedSeconds64.addAssign e d) :=
  ⟨fun e d => ⟨rfl, rfl, rfl, rfl⟩, fun e d => ⟨rfl, rfl, rfl, rfl⟩,
    fun e d => ⟨rfl, rfl, rfl, rfl⟩⟩

end SystemChrono
